import Mathlib

/-!
Verification of the skynet provider handshake core (`src/src/index.ts`,
class `BaseProvider<T>`).

The TypeScript class is shallowly embedded as pure Lean functions:

* `callInterface` mirrors `BaseProvider.callInterface`: a gate on the
  `isProviderConnected` flag followed by a lookup in the `methods` record.
  A registered handler is modelled by the result its invocation yields
  (`Except String V`: a resolved value or a thrown error string).
* `connectPopup` mirrors `BaseProvider.connectPopup`.  The three racing
  waiters (the `connector-connection-info` storage listener, the
  `connector` lifecycle listener, and the `monitorOtherListener`
  heartbeat) are driven by an explicit list of `PopupEvent`s — the order
  in which the waiters would settle.  The inner `new Promise` settles at
  most once (`RaceState.settled`); once it has settled the `finally`
  block runs the three controller cleanups, cancelling the remaining
  listeners, so events after the first settlement are not delivered
  (the storage-event broadcasts are macrotasks, the `finally` cleanup a
  microtask).  The `connector-connection-info` listener is one-shot, so
  a second `info` event is ignored even when the promise is still
  pending (`RaceState.infoConsumed`).  Because the promise executor is
  an `async` function passed to `new Promise`, a rejection coming out of
  `await this.saveConnectionInfo(...)` does NOT reject the outer
  promise: the executor dies and the promise stays pending until some
  other waiter settles it.  The embedding reproduces this faithfully.
* `connectSilent` and `disconnect` are the straight-line methods.
* Abstract collaborators (`JSON.parse`, `saveConnectionInfo`,
  `fetchConnectionInfo`, `fetchSkappPermissions`, `clearConnectionInfo`)
  are environment parameters: their behaviour for the call under
  scrutiny is supplied as data (`Except` results), since the class
  declares them `abstract`.
* Every externally observable action (collaborator invocation, storage
  emit, promise settlement, state mutation, controller cleanup) is
  recorded in an `Act` trace so that ordering and exactly-once claims
  are statable.
-/

/-- Caller-supplied identity record (`SkappInfo` from
`skynet-interface-utils`); opaque metadata, carried but never inspected
by the popup path. -/
structure SkappInfo where
  name : String
  dom : String
deriving Repr, DecidableEq

/-- Errors thrown by the provider core.  Each constructor corresponds to
one throw/reject site in `BaseProvider`; payload strings are carried
unchanged from the underlying failure. -/
inductive PErr where
  /-- Thrown by `callInterface` when `isProviderConnected` is false. -/
  | notConnected
  /-- Thrown by `callInterface` when the method is not in `this.methods`. -/
  | unimplementedMethod (method : String)
  /-- Raised when a registered handler threw `e`; propagated unchanged. -/
  | handlerFailure (e : String)
  /-- Raised by `connectPopup` when `JSON.parse` of the payload threw `e`. -/
  | invalidConnectionInfo (e : String)
  /-- Raised by `connectPopup` when the `connector` lifecycle promise
  rejected with `e` (popup closed or connector-reported error). -/
  | connectorFailure (e : String)
  /-- Raised by `connectPopup` when the heartbeat monitor rejected; the
  code rejects with the string "Connector timed out". -/
  | connectorTimeout
  /-- Raised by `connectSilent` when `fetchConnectionInfo` returned null. -/
  | noSavedConnection
  /-- Raised by `connectSilent` when `fetchSkappPermissions` returned
  false or null. -/
  | notPermissioned
  /-- Raised when an abstract collaborator rejected with `e`; propagated
  unchanged. -/
  | collaborator (e : String)
deriving Repr, DecidableEq

/-- Observable actions of the provider, in the order they are performed. -/
inductive Act (T : Type) where
  /-- Call of `emitStorageEvent(target, kind, data)`. -/
  | emitStorage (target kind data : String)
  /-- Invocation of `this.saveConnectionInfo(info)`. -/
  | saveInfo (info : T)
  /-- Invocation of `this.fetchConnectionInfo()`. -/
  | fetchInfo
  /-- Invocation of `this.fetchSkappPermissions(...)`. -/
  | fetchPerms
  /-- Invocation of `this.clearConnectionInfo()`. -/
  | clearInfo
  /-- Assignment `this.isProviderConnected = b`. -/
  | setConnected (b : Bool)
  /-- Call of `resolve()` on the handshake promise. -/
  | resolveP
  /-- Call of `reject(e)` on the handshake promise. -/
  | rejectP (e : PErr)
  /-- Call of `controllerConnectionInfo.cleanup()`. -/
  | cleanupInfo
  /-- Call of `controllerLong.cleanup()`. -/
  | cleanupLong
  /-- Call of `controllerPing.cleanup()`. -/
  | cleanupPing
deriving Repr, DecidableEq

/-- Behaviour of `callInterface` (`index.ts` lines 53–62).
`isProviderConnected` is the current flag, `methods` maps a method name
to the result its registered handler yields (`none` = not registered).
The function mutates nothing: it only gates and dispatches. -/
def callInterface {V : Type} (isProviderConnected : Bool)
    (methods : String → Option (Except String V)) (method : String) :
    Except PErr V :=
  if isProviderConnected = false then
    Except.error PErr.notConnected
  else
    match methods method with
    | none => Except.error (PErr.unimplementedMethod method)
    | some (Except.ok v) => Except.ok v
    | some (Except.error e) => Except.error (PErr.handlerFailure e)

/-- Environment of one `connectPopup` call: the behaviour of the
external collaborators it consults.  `parse` is `JSON.parse` on the raw
broadcast payload; `save` is the abstract `saveConnectionInfo`
(returning the saved value or rejecting with an error string). -/
structure PopupEnv (T : Type) where
  parse : String → Except String T
  save : T → Except String T

/-- One settlement of a racing waiter, in arrival order.  `info` is the
one-shot `connector-connection-info` broadcast carrying the raw payload;
`long` is the rejection of the `connector` lifecycle promise (popup
closed or connector error, with its detail string); `ping` is the
heartbeat monitor rejecting after its timeout. -/
inductive PopupEvent where
  | info (raw : String)
  | long (e : String)
  | ping
deriving Repr, DecidableEq

/-- State of the in-flight popup handshake race: whether (and how) the
inner promise has settled, the `isProviderConnected` flag, whether the
one-shot info listener has already fired, and the action trace so far. -/
structure RaceState (T : Type) where
  settled : Option (Except PErr Unit)
  connected : Bool
  infoConsumed : Bool
  trace : List (Act T)

/-- Delivery of one waiter settlement to the handshake (`index.ts`
lines 87–116).  After the promise has settled, the `finally` cleanup has
cancelled the listeners, so the event is not delivered.  A `long` or
`ping` rejection calls `reject`.  An `info` payload resumes the executor:
parse failure emits an error broadcast to the connector and rejects;
parse success invokes `saveConnectionInfo`, and if that succeeds the
flag is set and the promise resolves — if `saveConnectionInfo` rejects,
the `async` executor dies and the promise stays pending. -/
def stepEvent {T : Type} (env : PopupEnv T) (s : RaceState T)
    (ev : PopupEvent) : RaceState T :=
  match s.settled with
  | some _ => s
  | none =>
    match ev with
    | PopupEvent.long e =>
        ⟨some (Except.error (PErr.connectorFailure e)), s.connected,
          s.infoConsumed,
          s.trace ++ [Act.rejectP (PErr.connectorFailure e)]⟩
    | PopupEvent.ping =>
        ⟨some (Except.error PErr.connectorTimeout), s.connected,
          s.infoConsumed,
          s.trace ++ [Act.rejectP PErr.connectorTimeout]⟩
    | PopupEvent.info raw =>
        if s.infoConsumed then s
        else
          match env.parse raw with
          | Except.error e =>
              ⟨some (Except.error (PErr.invalidConnectionInfo e)),
                s.connected, true,
                s.trace ++ [Act.emitStorage "provider" "error" e,
                  Act.rejectP (PErr.invalidConnectionInfo e)]⟩
          | Except.ok t =>
              match env.save t with
              | Except.error _ =>
                  ⟨none, s.connected, true, s.trace ++ [Act.saveInfo t]⟩
              | Except.ok _ =>
                  ⟨some (Except.ok ()), true, true,
                    s.trace ++ [Act.saveInfo t, Act.setConnected true,
                      Act.resolveP]⟩

/-- The handshake race: the waiter settlements in `events` delivered in
order to a fresh race started with `isProviderConnected = c0`. -/
def runRace {T : Type} (env : PopupEnv T) (c0 : Bool)
    (events : List PopupEvent) : RaceState T :=
  List.foldl (stepEvent env) ⟨none, c0, false, []⟩ events

/-- Behaviour of `connectPopup` (`index.ts` lines 73–128) under a given
environment and waiter-settlement order.  The result is `some (ok ())`
when the method resolves, `some (error e)` when it throws `e` (the
`.catch` rethrows unchanged), and `none` when the promise has not
settled after all the given events (the call is still pending).  On
settlement the `finally` block cleans up the three controllers, in
source order, before the call returns or throws.  The skapp identity is
the `_skappInfo` parameter of the source: received but never read. -/
def connectPopup {T : Type} (_skappInfo : SkappInfo) (env : PopupEnv T)
    (events : List PopupEvent) (c0 : Bool) :
    Option (Except PErr Unit) × Bool × List (Act T) :=
  match runRace env c0 events with
  | ⟨none, c, _, tr⟩ => (none, c, tr)
  | ⟨some r, c, _, tr⟩ =>
      (some r, c, tr ++ [Act.cleanupInfo, Act.cleanupLong, Act.cleanupPing])

/-- Environment of one `connectSilent` call: the behaviour of
`fetchConnectionInfo` (`none` models a null result) and of
`fetchSkappPermissions` (`Promise<boolean | null>`). -/
structure SilentEnv (T : Type) where
  fetch : Except String (Option T)
  perms : T → SkappInfo → Except String (Option Bool)

/-- Behaviour of `connectSilent` (`index.ts` lines 133–149): fetch the
persisted info, throw `noSavedConnection` if absent; check permissions,
throw `notPermissioned` on a false/null result; otherwise set
`isProviderConnected`.  Collaborator rejections propagate unchanged. -/
def connectSilent {T : Type} (env : SilentEnv T) (si : SkappInfo)
    (c0 : Bool) : Except PErr Unit × Bool × List (Act T) :=
  match env.fetch with
  | Except.error e => (Except.error (PErr.collaborator e), c0, [Act.fetchInfo])
  | Except.ok none => (Except.error PErr.noSavedConnection, c0, [Act.fetchInfo])
  | Except.ok (some t) =>
      match env.perms t si with
      | Except.error e =>
          (Except.error (PErr.collaborator e), c0, [Act.fetchInfo, Act.fetchPerms])
      | Except.ok none =>
          (Except.error PErr.notPermissioned, c0, [Act.fetchInfo, Act.fetchPerms])
      | Except.ok (some false) =>
          (Except.error PErr.notPermissioned, c0, [Act.fetchInfo, Act.fetchPerms])
      | Except.ok (some true) =>
          (Except.ok (), true, [Act.fetchInfo, Act.fetchPerms, Act.setConnected true])

/-- Environment of one `disconnect` call: the behaviour of the abstract
`clearConnectionInfo`. -/
structure DisconnectEnv where
  clear : Except String Unit

/-- Behaviour of `disconnect` (`index.ts` lines 154–157): await
`clearConnectionInfo`, then set `isProviderConnected = false`.  A
rejection of the collaborator propagates and skips the flag reset. -/
def disconnect {T : Type} (env : DisconnectEnv) (c0 : Bool) :
    Except PErr Unit × Bool × List (Act T) :=
  match env.clear with
  | Except.error e => (Except.error (PErr.collaborator e), c0, [Act.clearInfo])
  | Except.ok _ => (Except.ok (), false, [Act.clearInfo, Act.setConnected false])

/-- Test for the `controllerConnectionInfo.cleanup()` action. -/
def Act.isCleanupInfo {T : Type} : Act T → Bool
  | Act.cleanupInfo => true
  | _ => false

/-- Test for the `controllerLong.cleanup()` action. -/
def Act.isCleanupLong {T : Type} : Act T → Bool
  | Act.cleanupLong => true
  | _ => false

/-- Test for the `controllerPing.cleanup()` action. -/
def Act.isCleanupPing {T : Type} : Act T → Bool
  | Act.cleanupPing => true
  | _ => false

/-- Number of actions in a trace satisfying `p`. -/
def countAct {T : Type} (p : Act T → Bool) : List (Act T) → Nat
  | [] => 0
  | a :: l => (if p a then 1 else 0) + countAct p l

/-- Once the handshake promise has settled, further waiter settlements
are not delivered: the race state is unchanged. -/
theorem stepEvent_settled {T : Type} (env : PopupEnv T) (s : RaceState T)
    (ev : PopupEvent) (r : Except PErr Unit) (h : s.settled = some r) :
    stepEvent env s ev = s := by
  obtain ⟨st, c, ic, tr⟩ := s
  cases st with
  | none => simp at h
  | some r2 => rfl

/-- A settled race state absorbs any further event list. -/
theorem foldl_settled {T : Type} (env : PopupEnv T) (s : RaceState T)
    (l : List PopupEvent) (r : Except PErr Unit) (h : s.settled = some r) :
    List.foldl (stepEvent env) s l = s := by
  induction l with
  | nil => rfl
  | cons e l ih => rw [List.foldl_cons, stepEvent_settled env s e r h]; exact ih

/-- Invariant characterising every race state reachable from a fresh
handshake started with `isProviderConnected = c0`: the race is either
untouched; or the executor died on a failed `saveConnectionInfo` and the
promise is still pending; or it resolved after a successful save; or it
rejected before the info payload was consumed; or it rejected on a parse
failure after emitting the error broadcast; or it rejected via another
waiter after the executor had died on a failed save. -/
def RaceInv {T : Type} (env : PopupEnv T) (c0 : Bool) (s : RaceState T) : Prop :=
  s = ⟨none, c0, false, []⟩ ∨
  (∃ t m, env.save t = Except.error m ∧
    s = ⟨none, c0, true, [Act.saveInfo t]⟩) ∨
  (∃ t u, env.save t = Except.ok u ∧
    s = ⟨some (Except.ok ()), true, true,
      [Act.saveInfo t, Act.setConnected true, Act.resolveP]⟩) ∨
  (∃ e, s = ⟨some (Except.error e), c0, false, [Act.rejectP e]⟩) ∨
  (∃ m, s = ⟨some (Except.error (PErr.invalidConnectionInfo m)), c0, true,
    [Act.emitStorage "provider" "error" m,
     Act.rejectP (PErr.invalidConnectionInfo m)]⟩) ∨
  (∃ e t m, env.save t = Except.error m ∧
    s = ⟨some (Except.error e), c0, true, [Act.saveInfo t, Act.rejectP e]⟩)

/-- Delivery of one event preserves the reachability invariant. -/
theorem stepEvent_inv {T : Type} (env : PopupEnv T) (c0 : Bool)
    (s : RaceState T) (ev : PopupEvent) (h : RaceInv env c0 s) :
    RaceInv env c0 (stepEvent env s ev) := by
  rcases h with h | ⟨t, m, hm, h⟩ | ⟨t, u, hu, h⟩ | ⟨e, h⟩ | ⟨m, h⟩ |
    ⟨e, t, m, hm, h⟩
  · subst h
    cases ev with
    | long e =>
        exact Or.inr (Or.inr (Or.inr (Or.inl
          ⟨PErr.connectorFailure e, by simp [stepEvent]⟩)))
    | ping =>
        exact Or.inr (Or.inr (Or.inr (Or.inl
          ⟨PErr.connectorTimeout, by simp [stepEvent]⟩)))
    | info raw =>
        cases hp : env.parse raw with
        | error e =>
            exact Or.inr (Or.inr (Or.inr (Or.inr (Or.inl
              ⟨e, by simp [stepEvent, hp]⟩))))
        | ok t =>
            cases hs : env.save t with
            | error m =>
                exact Or.inr (Or.inl ⟨t, m, hs, by simp [stepEvent, hp, hs]⟩)
            | ok u =>
                exact Or.inr (Or.inr (Or.inl
                  ⟨t, u, hs, by simp [stepEvent, hp, hs]⟩))
  · subst h
    cases ev with
    | long e =>
        exact Or.inr (Or.inr (Or.inr (Or.inr (Or.inr
          ⟨PErr.connectorFailure e, t, m, hm, by simp [stepEvent]⟩))))
    | ping =>
        exact Or.inr (Or.inr (Or.inr (Or.inr (Or.inr
          ⟨PErr.connectorTimeout, t, m, hm, by simp [stepEvent]⟩))))
    | info raw =>
        exact Or.inr (Or.inl ⟨t, m, hm, by simp [stepEvent]⟩)
  · subst h
    exact Or.inr (Or.inr (Or.inl ⟨t, u, hu, rfl⟩))
  · subst h
    exact Or.inr (Or.inr (Or.inr (Or.inl ⟨e, rfl⟩)))
  · subst h
    exact Or.inr (Or.inr (Or.inr (Or.inr (Or.inl ⟨m, rfl⟩))))
  · subst h
    exact Or.inr (Or.inr (Or.inr (Or.inr (Or.inr ⟨e, t, m, hm, rfl⟩))))

/-- The reachability invariant survives any event list. -/
theorem foldl_inv {T : Type} (env : PopupEnv T) (c0 : Bool)
    (l : List PopupEvent) (s : RaceState T) (hs : RaceInv env c0 s) :
    RaceInv env c0 (List.foldl (stepEvent env) s l) := by
  induction l generalizing s with
  | nil => exact hs
  | cons e l ih => exact ih _ (stepEvent_inv env c0 s e hs)

/-- Every completed race satisfies the reachability invariant. -/
theorem runRace_inv {T : Type} (env : PopupEnv T) (c0 : Bool)
    (events : List PopupEvent) : RaceInv env c0 (runRace env c0 events) :=
  foldl_inv env c0 events _ (Or.inl rfl)

/-- Computation rule for `connectPopup` when the race settled. -/
theorem connectPopup_eq_of_settled {T : Type} (si : SkappInfo)
    (env : PopupEnv T) (events : List PopupEvent) (c0 : Bool)
    (r : Except PErr Unit) (c ic : Bool) (tr : List (Act T))
    (hr : runRace env c0 events = ⟨some r, c, ic, tr⟩) :
    connectPopup si env events c0 =
      (some r, c, tr ++ [Act.cleanupInfo, Act.cleanupLong, Act.cleanupPing]) := by
  simp [connectPopup, hr]

/-- C5: for every method name, `callInterface` fails with `notConnected`
when the provider is disconnected; when connected it fails with
`unimplementedMethod` if the name is not registered; otherwise it
invokes the registered handler and returns its result or propagates the
handler failure unchanged — and, being a pure gate-and-dispatch, it has
no other side effect. -/
theorem callInterface_contract {V : Type} (connected : Bool)
    (methods : String → Option (Except String V)) (m : String) :
    (connected = false →
      callInterface connected methods m = Except.error PErr.notConnected) ∧
    (connected = true → methods m = none →
      callInterface connected methods m =
        Except.error (PErr.unimplementedMethod m)) ∧
    (∀ v, connected = true → methods m = some (Except.ok v) →
      callInterface connected methods m = Except.ok v) ∧
    (∀ e, connected = true → methods m = some (Except.error e) →
      callInterface connected methods m =
        Except.error (PErr.handlerFailure e)) := by
  refine ⟨?_, ?_, ?_, ?_⟩ <;> intros <;> simp_all [callInterface]

/-- Witness for C5 at concrete inputs: a disconnected provider rejects
with `notConnected`, and a connected provider without the method rejects
with `unimplementedMethod`. -/
theorem callInterface_contract_witness :
    callInterface (V := String) false (fun _ => none) "doThing" =
      Except.error PErr.notConnected ∧
    callInterface (V := String) true (fun _ => none) "doThing" =
      Except.error (PErr.unimplementedMethod "doThing") :=
  ⟨(callInterface_contract false (fun _ => none) "doThing").1 rfl,
   (callInterface_contract true (fun _ => none) "doThing").2.1 rfl rfl⟩

/-- C6: `connectSilent` fails with `noSavedConnection` when the
persistence collaborator returns null, without ever invoking the
permission collaborator (the trace contains no `fetchPerms`); with saved
info but a false/null permission result it fails with `notPermissioned`
and the connection flag is unchanged; otherwise it sets the connection
flag. -/
theorem connectSilent_contract {T : Type} (env : SilentEnv T)
    (si : SkappInfo) (c0 : Bool) :
    (env.fetch = Except.ok none →
      connectSilent env si c0 =
        (Except.error PErr.noSavedConnection, c0, [Act.fetchInfo])) ∧
    (∀ t, env.fetch = Except.ok (some t) →
      (env.perms t si = Except.ok none ∨
        env.perms t si = Except.ok (some false)) →
      connectSilent env si c0 =
        (Except.error PErr.notPermissioned, c0,
          [Act.fetchInfo, Act.fetchPerms])) ∧
    (∀ t, env.fetch = Except.ok (some t) →
      env.perms t si = Except.ok (some true) →
      connectSilent env si c0 =
        (Except.ok (), true,
          [Act.fetchInfo, Act.fetchPerms, Act.setConnected true])) := by
  refine ⟨?_, ?_, ?_⟩
  · intro hf
    simp [connectSilent, hf]
  · intro t hf hp
    rcases hp with hp | hp <;> simp [connectSilent, hf, hp]
  · intro t hf hp
    simp [connectSilent, hf, hp]

/-- Witness for C6 at concrete inputs: a null fetch yields
`noSavedConnection` with only the fetch in the trace; a false permission
yields `notPermissioned` leaving the flag false; a true permission
connects. -/
theorem connectSilent_contract_witness :
    connectSilent (T := String)
        ⟨Except.ok none, fun _ _ => Except.ok (some true)⟩ ⟨"s", "d"⟩ false =
      (Except.error PErr.noSavedConnection, false, [Act.fetchInfo]) ∧
    connectSilent (T := String)
        ⟨Except.ok (some "info"), fun _ _ => Except.ok (some false)⟩
        ⟨"s", "d"⟩ false =
      (Except.error PErr.notPermissioned, false,
        [Act.fetchInfo, Act.fetchPerms]) ∧
    connectSilent (T := String)
        ⟨Except.ok (some "info"), fun _ _ => Except.ok (some true)⟩
        ⟨"s", "d"⟩ false =
      (Except.ok (), true,
        [Act.fetchInfo, Act.fetchPerms, Act.setConnected true]) :=
  ⟨(connectSilent_contract
      ⟨Except.ok none, fun _ _ => Except.ok (some true)⟩ ⟨"s", "d"⟩ false).1 rfl,
   (connectSilent_contract
      ⟨Except.ok (some "info"), fun _ _ => Except.ok (some false)⟩
      ⟨"s", "d"⟩ false).2.1 "info" rfl (Or.inr rfl),
   (connectSilent_contract
      ⟨Except.ok (some "info"), fun _ _ => Except.ok (some true)⟩
      ⟨"s", "d"⟩ false).2.2 "info" rfl rfl⟩

/-- C7 counterexample: `disconnect` is not unconditional and can throw —
when the abstract `clearConnectionInfo` rejects, the call propagates the
rejection and the provider remains connected, so a call to `disconnect`
does not always transition to Disconnected without throwing. -/
theorem disconnect_claim_counterexample :
    (disconnect (T := String) ⟨Except.error "storage failure"⟩ true).1 =
      Except.error (PErr.collaborator "storage failure") ∧
    (disconnect (T := String) ⟨Except.error "storage failure"⟩ true).2.1 =
      true :=
  ⟨rfl, rfl⟩

/-- C7 amended: every call to `disconnect` invokes the clear-persistence
collaborator, and whenever that collaborator succeeds the call resolves
without throwing and transitions the flag to disconnected, regardless of
whether a connection was active — in particular a repeated call from the
Disconnected state is a no-op that still clears persisted info. -/
theorem disconnect_amended {T : Type} (env : DisconnectEnv) (c0 : Bool) :
    Act.clearInfo ∈ (disconnect (T := T) env c0).2.2 ∧
    (env.clear = Except.ok () →
      disconnect (T := T) env c0 =
        (Except.ok (), false, [Act.clearInfo, Act.setConnected false])) := by
  constructor
  · cases hc : env.clear <;> simp [disconnect, hc]
  · intro h
    simp [disconnect, h]

/-- Witness for C7 amended at a concrete input: with a succeeding clear
collaborator, `disconnect` from the Disconnected state resolves, leaves
the flag false and still clears the persisted info. -/
theorem disconnect_amended_witness :
    disconnect (T := String) ⟨Except.ok ()⟩ false =
      (Except.ok (), false, [Act.clearInfo, Act.setConnected false]) :=
  (disconnect_amended ⟨Except.ok ()⟩ false).2 rfl

/-- C8 divergence, evaluated on the code: when the info payload parses
but `saveConnectionInfo` rejects, the rejection is not propagated — the
async executor passed to `new Promise` dies and the handshake promise
stays pending (first conjunct: no settlement, cleanup not yet run), and
if the heartbeat later times out the caller sees `connectorTimeout`
instead of the save failure (second conjunct). -/
theorem connectPopup_save_failure_swallowed :
    connectPopup (T := String) ⟨"s", "d"⟩
        ⟨fun raw => Except.ok raw, fun _ => Except.error "save failed"⟩
        [PopupEvent.info "payload"] false =
      (none, false, [Act.saveInfo "payload"]) ∧
    connectPopup (T := String) ⟨"s", "d"⟩
        ⟨fun raw => Except.ok raw, fun _ => Except.error "save failed"⟩
        [PopupEvent.info "payload", PopupEvent.ping] false =
      (some (Except.error PErr.connectorTimeout), false,
        [Act.saveInfo "payload", Act.rejectP PErr.connectorTimeout,
         Act.cleanupInfo, Act.cleanupLong, Act.cleanupPing]) :=
  ⟨rfl, rfl⟩

/-- C10: `connectPopup` never reads the caller-supplied identity record:
for any two identities and the same environment, waiter settlements and
initial flag, the outcome, final flag and action trace coincide. -/
theorem connectPopup_ignores_identity {T : Type} (env : PopupEnv T)
    (events : List PopupEvent) (c0 : Bool) (si1 si2 : SkappInfo) :
    connectPopup si1 env events c0 = connectPopup si2 env events c0 := rfl

/-- C1: whenever a popup handshake throws — whatever the cause — the
connection session is unchanged: starting disconnected, the provider is
still disconnected afterwards, and no connection info was persisted
(every `saveConnectionInfo` invocation in the trace, if any, rejected,
so nothing was stored). -/
theorem connectPopup_failure_preserves_session {T : Type} (si : SkappInfo)
    (env : PopupEnv T) (events : List PopupEvent) (e : PErr)
    (h : (connectPopup si env events false).1 = some (Except.error e)) :
    (connectPopup si env events false).2.1 = false ∧
    ∀ t, Act.saveInfo t ∈ (connectPopup si env events false).2.2 →
      ∃ m, env.save t = Except.error m := by
  rcases runRace_inv env false events with hr | ⟨t, m, hm, hr⟩ |
    ⟨t, u, hu, hr⟩ | ⟨e2, hr⟩ | ⟨m, hr⟩ | ⟨e2, t, m, hm, hr⟩
  · simp [connectPopup, hr] at h
  · simp [connectPopup, hr] at h
  · simp [connectPopup, hr] at h
  · constructor
    · simp [connectPopup, hr]
    · intro t ht
      simp [connectPopup, hr] at ht
  · constructor
    · simp [connectPopup, hr]
    · intro t ht
      simp [connectPopup, hr] at ht
  · constructor
    · simp [connectPopup, hr]
    · intro t2 ht
      simp [connectPopup, hr] at ht
      exact ht ▸ ⟨m, hm⟩

/-- Witness for C1 at a concrete input: a handshake lost to a connector
close signal leaves the provider disconnected. -/
theorem connectPopup_failure_preserves_session_witness :
    (connectPopup (T := String) ⟨"s", "d"⟩
        ⟨fun raw => Except.ok raw, fun t => Except.ok t⟩
        [PopupEvent.long "closed"] false).2.1 = false :=
  (connectPopup_failure_preserves_session ⟨"s", "d"⟩
      ⟨fun raw => Except.ok raw, fun t => Except.ok t⟩
      [PopupEvent.long "closed"] (PErr.connectorFailure "closed") rfl).1

/-- C2: whenever `connectPopup` settles — resolving or throwing, for any
environment and any waiter settlement order — the cleanup of each of the
three waiters (info listener, lifecycle listener, heartbeat monitor)
appears exactly once in the trace before the call returns. -/
theorem connectPopup_cleanup_exactly_once {T : Type} (si : SkappInfo)
    (env : PopupEnv T) (events : List PopupEvent) (c0 : Bool)
    (r : Except PErr Unit)
    (h : (connectPopup si env events c0).1 = some r) :
    countAct Act.isCleanupInfo (connectPopup si env events c0).2.2 = 1 ∧
    countAct Act.isCleanupLong (connectPopup si env events c0).2.2 = 1 ∧
    countAct Act.isCleanupPing (connectPopup si env events c0).2.2 = 1 := by
  rcases runRace_inv env c0 events with hr | ⟨t, m, hm, hr⟩ |
    ⟨t, u, hu, hr⟩ | ⟨e2, hr⟩ | ⟨m, hr⟩ | ⟨e2, t, m, hm, hr⟩
  · simp [connectPopup, hr] at h
  · simp [connectPopup, hr] at h
  · rw [connectPopup_eq_of_settled si env events c0 _ _ _ _ hr]
    exact ⟨rfl, rfl, rfl⟩
  · rw [connectPopup_eq_of_settled si env events c0 _ _ _ _ hr]
    exact ⟨rfl, rfl, rfl⟩
  · rw [connectPopup_eq_of_settled si env events c0 _ _ _ _ hr]
    exact ⟨rfl, rfl, rfl⟩
  · rw [connectPopup_eq_of_settled si env events c0 _ _ _ _ hr]
    exact ⟨rfl, rfl, rfl⟩

/-- Witness for C2 at a concrete input: a handshake that times out
cleans up each of the three waiters exactly once. -/
theorem connectPopup_cleanup_exactly_once_witness :
    countAct Act.isCleanupInfo
      (connectPopup (T := String) ⟨"s", "d"⟩
        ⟨fun raw => Except.ok raw, fun t => Except.ok t⟩
        [PopupEvent.ping] false).2.2 = 1 ∧
    countAct Act.isCleanupLong
      (connectPopup (T := String) ⟨"s", "d"⟩
        ⟨fun raw => Except.ok raw, fun t => Except.ok t⟩
        [PopupEvent.ping] false).2.2 = 1 ∧
    countAct Act.isCleanupPing
      (connectPopup (T := String) ⟨"s", "d"⟩
        ⟨fun raw => Except.ok raw, fun t => Except.ok t⟩
        [PopupEvent.ping] false).2.2 = 1 :=
  connectPopup_cleanup_exactly_once ⟨"s", "d"⟩
    ⟨fun raw => Except.ok raw, fun t => Except.ok t⟩
    [PopupEvent.ping] false (Except.error PErr.connectorTimeout) rfl

/-- C3: whenever a popup handshake resolves, the trace is exactly: the
parsed connection data is handed to `saveConnectionInfo` (which
succeeded), then the connection flag is set, then the promise resolves,
then the three cleanups run — so persistence strictly precedes the
Connected transition, which strictly precedes resolution. -/
theorem connectPopup_success_saves_then_connects {T : Type}
    (si : SkappInfo) (env : PopupEnv T) (events : List PopupEvent)
    (h : (connectPopup si env events false).1 = some (Except.ok ())) :
    ∃ t u, env.save t = Except.ok u ∧
      (connectPopup si env events false).2.1 = true ∧
      (connectPopup si env events false).2.2 =
        [Act.saveInfo t, Act.setConnected true, Act.resolveP,
         Act.cleanupInfo, Act.cleanupLong, Act.cleanupPing] := by
  rcases runRace_inv env false events with hr | ⟨t, m, hm, hr⟩ |
    ⟨t, u, hu, hr⟩ | ⟨e2, hr⟩ | ⟨m, hr⟩ | ⟨e2, t, m, hm, hr⟩
  · simp [connectPopup, hr] at h
  · simp [connectPopup, hr] at h
  · exact ⟨t, u, hu, by simp [connectPopup, hr], by simp [connectPopup, hr]⟩
  · simp [connectPopup, hr] at h
  · simp [connectPopup, hr] at h
  · simp [connectPopup, hr] at h

/-- Witness for C3 at a concrete input: a handshake that receives a
valid payload ends up connected. -/
theorem connectPopup_success_saves_then_connects_witness :
    (connectPopup (T := String) ⟨"s", "d"⟩
        ⟨fun raw => Except.ok raw, fun t => Except.ok t⟩
        [PopupEvent.info "data"] false).2.1 = true := by
  obtain ⟨t, u, hu, hc, htr⟩ :=
    connectPopup_success_saves_then_connects (T := String) ⟨"s", "d"⟩
      ⟨fun raw => Except.ok raw, fun t => Except.ok t⟩
      [PopupEvent.info "data"] rfl
  exact hc

/-- C4: the first settling waiter determines the outcome — if the
connection-info broadcast arrives first with a payload that parses and
saves, then whatever the other waiters do afterwards (stale close
signal, heartbeat failure, anything in `rest`), the call resolves, the
final state is connected, and the trace shows a single Connected
transition and no rejection. -/
theorem connectPopup_info_first_wins {T : Type} (si : SkappInfo)
    (env : PopupEnv T) (raw : String) (t u : T) (rest : List PopupEvent)
    (hp : env.parse raw = Except.ok t) (hs : env.save t = Except.ok u) :
    connectPopup si env (PopupEvent.info raw :: rest) false =
      (some (Except.ok ()), true,
       [Act.saveInfo t, Act.setConnected true, Act.resolveP,
        Act.cleanupInfo, Act.cleanupLong, Act.cleanupPing]) := by
  have h1 : stepEvent env ⟨none, false, false, []⟩ (PopupEvent.info raw) =
      ⟨some (Except.ok ()), true, true,
        [Act.saveInfo t, Act.setConnected true, Act.resolveP]⟩ := by
    simp [stepEvent, hp, hs]
  have h2 : runRace env false (PopupEvent.info raw :: rest) =
      ⟨some (Except.ok ()), true, true,
        [Act.saveInfo t, Act.setConnected true, Act.resolveP]⟩ := by
    unfold runRace
    rw [List.foldl_cons, h1]
    exact foldl_settled env _ rest (Except.ok ()) rfl
  simp [connectPopup, h2]

/-- Witness for C4 at a concrete input: valid info followed by a stale
close signal and a late heartbeat failure still connects, with no
second transition and no error in the trace. -/
theorem connectPopup_info_first_wins_witness :
    connectPopup (T := String) ⟨"s", "d"⟩
        ⟨fun raw => Except.ok raw, fun t => Except.ok t⟩
        [PopupEvent.info "data", PopupEvent.long "stale close",
         PopupEvent.ping] false =
      (some (Except.ok ()), true,
       [Act.saveInfo "data", Act.setConnected true, Act.resolveP,
        Act.cleanupInfo, Act.cleanupLong, Act.cleanupPing]) :=
  connectPopup_info_first_wins ⟨"s", "d"⟩
    ⟨fun raw => Except.ok raw, fun t => Except.ok t⟩
    "data" "data" "data" [PopupEvent.long "stale close", PopupEvent.ping]
    rfl rfl

/-- C9: when the delivered connection-info payload fails to parse, the
handshake throws `invalidConnectionInfo` carrying the parse error, the
provider first emits a broadcast on the error topic toward the connector
with the parse failure detail (the emit precedes the rejection in the
trace), and the connection flag is unchanged. -/
theorem connectPopup_invalid_info_emits_error {T : Type} (si : SkappInfo)
    (env : PopupEnv T) (raw m : String) (rest : List PopupEvent)
    (hp : env.parse raw = Except.error m) :
    connectPopup si env (PopupEvent.info raw :: rest) false =
      (some (Except.error (PErr.invalidConnectionInfo m)), false,
       [Act.emitStorage "provider" "error" m,
        Act.rejectP (PErr.invalidConnectionInfo m),
        Act.cleanupInfo, Act.cleanupLong, Act.cleanupPing]) := by
  have h1 : stepEvent env ⟨none, false, false, []⟩ (PopupEvent.info raw) =
      ⟨some (Except.error (PErr.invalidConnectionInfo m)), false, true,
        [Act.emitStorage "provider" "error" m,
         Act.rejectP (PErr.invalidConnectionInfo m)]⟩ := by
    simp [stepEvent, hp]
  have h2 : runRace env false (PopupEvent.info raw :: rest) =
      ⟨some (Except.error (PErr.invalidConnectionInfo m)), false, true,
        [Act.emitStorage "provider" "error" m,
         Act.rejectP (PErr.invalidConnectionInfo m)]⟩ := by
    unfold runRace
    rw [List.foldl_cons, h1]
    exact foldl_settled env _ rest (Except.error (PErr.invalidConnectionInfo m)) rfl
  simp [connectPopup, h2]

/-- Witness for C9 at a concrete input: a malformed payload produces the
`invalidConnectionInfo` rejection and the error broadcast toward the
connector. -/
theorem connectPopup_invalid_info_emits_error_witness :
    connectPopup (T := String) ⟨"s", "d"⟩
        ⟨fun _ => Except.error "unexpected token", fun t => Except.ok t⟩
        [PopupEvent.info "not json"] false =
      (some (Except.error (PErr.invalidConnectionInfo "unexpected token")),
       false,
       [Act.emitStorage "provider" "error" "unexpected token",
        Act.rejectP (PErr.invalidConnectionInfo "unexpected token"),
        Act.cleanupInfo, Act.cleanupLong, Act.cleanupPing]) :=
  connectPopup_invalid_info_emits_error ⟨"s", "d"⟩
    ⟨fun _ => Except.error "unexpected token", fun t => Except.ok t⟩
    "not json" "unexpected token" [] rfl
